import Mathlib

/-!
Verification of the ts-tvl TROPIC01 functional model.

Shallow embedding of:
* `tvl/messages/endianness.py` and `tvl/messages/datafield.py` — the wire
  codec for message data fields;
* `tvl/targets/model/base_model.py` — `BaseModel`: request dispatch,
  configuration cache, access control, session invalidation and the
  placeholder encryption of the diagnostic mode.

Python byte strings are modelled as `List Nat` with elements below 256,
Python ints as `Nat` (all values handled here are unsigned) or as `Int`
where the source holds a negative sentinel, and raised exceptions as
`Except` error values.  Collaborators whose source is not part of the
excerpt (`constants.py`, `configuration_object_impl.py`,
`encrypted_session.py`, `l2_messages.py`, the `internal` package) are
modelled from the specification; each such definition says so in its doc
comment.
-/

/-- Embeds `Endianness` (`tvl/messages/endianness.py`): the process-wide
byte order used for message serialization; defaults to little-endian. -/
inductive Endianness
  | little
  | big
deriving DecidableEq

/-- Embeds `Dtype` (`tvl/messages/datafield.py`): the integer element types
of a data field. -/
inductive Dtype
  | UINT8
  | UINT16
  | UINT32
  | UINT64
deriving DecidableEq

/-- Embeds `Dtype.nb_bytes`: byte width of one element
(`struct.calcsize` of the format character). -/
def Dtype.nb_bytes : Dtype → Nat
  | .UINT8 => 1
  | .UINT16 => 2
  | .UINT32 => 4
  | .UINT64 => 8

/-- Little-endian base-256 digits of `x` on exactly `w` bytes: one unsigned
integer as packed by `struct.pack` with the `<` format. -/
def packLE : Nat → Nat → List Nat
  | 0, _ => []
  | w + 1, x => x % 256 :: packLE w (x / 256)

/-- Value of a little-endian byte string: one unsigned integer as read by
`struct.unpack` with the `<` format. -/
def unpackLE : List Nat → Nat
  | [] => 0
  | b :: bs => b + 256 * unpackLE bs

/-- One unsigned integer of width `w` packed in byte order `e`
(`struct.pack`; the big-endian format is the byte-reversed little-endian
one). -/
def packElem (e : Endianness) (w : Nat) (x : Nat) : List Nat :=
  match e with
  | .little => packLE w x
  | .big => (packLE w x).reverse

/-- One unsigned integer read from a byte string in byte order `e`
(`struct.unpack`; only applied to byte strings of the dtype's width). -/
def unpackElem (e : Endianness) (b : List Nat) : Nat :=
  match e with
  | .little => unpackLE b
  | .big => unpackLE b.reverse

/-- Embeds `Params` (`tvl/messages/datafield.py`): the parameters of a
`DataField`.  The `size` init-only argument of the Python dataclass sets
`min_size` and `max_size` to the same value; the `default` value is not
consulted by any claim and is omitted. -/
structure Params where
  dtype : Dtype
  min_size : Nat := 1
  max_size : Nat := 1
  priority : Nat := 0
  is_data : Bool := true
deriving DecidableEq

/-- Embeds the `Params.__post_init__` checks (raising `ParamError`
otherwise): `min_size ≥ 0` holds by `Nat`; `max_size ≥ 1`;
`max_size ≥ min_size`. -/
def Params.valid (p : Params) : Prop :=
  1 ≤ p.max_size ∧ p.min_size ≤ p.max_size

instance (p : Params) : Decidable p.valid := by
  unfold Params.valid
  infer_instance

/-- Embeds `Params.has_variable_size`: the field can contain a variable
number of elements. -/
def Params.has_variable_size (p : Params) : Bool :=
  p.min_size != p.max_size

/-- Embeds `DataFieldInputData = Union[int, List[int], bytes]`, plus the
`AUTO` sentinel singleton accepted by `ValueDescriptor.__set__`. -/
inductive DataFieldInput
  | auto
  | int (value : Nat)
  | list (value : List Nat)
  | bytes (value : List Nat)
deriving DecidableEq

/-- Embeds the `bytes` overload of `_format_to_list`
(`tvl/messages/datafield.py`): try to unpack the bytes as a single element
of the field's dtype — `struct.error` unless the length is exactly
`dtype.nb_bytes` — and on failure unpack them as `len(value)` separate
`uint8` elements, which always succeeds. -/
def format_bytes_to_list (e : Endianness) (dtype : Dtype) (b : List Nat) : List Nat :=
  if b.length = dtype.nb_bytes then [unpackElem e b] else b

/-- Embeds `_format_to_list`: normalize a non-`AUTO` input to a list of
element values (an `int` wraps to a singleton, a `list` passes through,
`bytes` as in `format_bytes_to_list`).  The `auto` case never reaches
`_format_to_list` in the source (`ValueDescriptor.__set__` returns before
calling it); it is mapped to `[]` here and never used. -/
def format_to_list (e : Endianness) (p : Params) : DataFieldInput → List Nat
  | .auto => []
  | .int v => [v]
  | .list v => v
  | .bytes v => format_bytes_to_list e p.dtype v

/-- Embeds the stored `_value` of a `DataField`: either the `AUTO` sentinel
or the normalized element list. -/
inductive StoredValue
  | auto
  | val (elems : List Nat)
deriving DecidableEq

/-- Embeds `ListTooLongError` as raised by `ValueDescriptor.__set__`. -/
inductive SetError
  | listTooLong
deriving DecidableEq

/-- Embeds `ValueDescriptor.__set__` (`tvl/messages/datafield.py`): store
`AUTO` unchanged; otherwise normalize the input with `_format_to_list`,
raise `ListTooLongError` when the normalized list exceeds `max_size`
elements, and zero-pad up to `min_size` (variable-size field) or
`max_size` (fixed-size field).  An error leaves the previously stored
value untouched: the Python exception propagates before any assignment
happens. -/
def value_descriptor_set (e : Endianness) (p : Params) (input : DataFieldInput) :
    Except SetError StoredValue :=
  match input with
  | .auto => .ok .auto
  | input =>
    let value := format_to_list e p input
    if value.length > p.max_size then .error .listTooLong
    else
      let min_length := if p.has_variable_size then p.min_size else p.max_size
      .ok (.val (value ++ List.replicate (min_length - value.length) 0))

/-- Embeds `DataValueError` as raised by `DataField.to_bytes` when
`struct.pack` rejects an element value. -/
inductive ToBytesError
  | dataValueError
deriving DecidableEq

/-- Embeds `DataField.to_bytes`: `struct.pack` of all stored elements in
the configured byte order; `struct.error` — wrapped as `DataValueError` —
when an element does not fit the dtype width. -/
def to_bytes (e : Endianness) (p : Params) (elems : List Nat) :
    Except ToBytesError (List Nat) :=
  if elems.all (fun x => x < 2 ^ (8 * p.dtype.nb_bytes)) then
    .ok ((elems.map (packElem e p.dtype.nb_bytes)).flatten)
  else .error .dataValueError

/-- Modelled from the spec (§3, §4.7): `ConfigurationObjectImpl`
(`tvl/targets/model/configuration_object_impl.py` is not part of the
excerpted source) — a bank of 32-bit registers addressed by a fixed
enumeration, here an address-indexed function. -/
def ConfigObject : Type := Nat → Nat

/-- Modelled from the spec (§3): the conjunction
`ConfigurationObjectImpl.__and__` of two configuration objects — "the
*effective* configuration is their bitwise AND", register-wise. -/
def ConfigObject.and (a b : ConfigObject) : ConfigObject :=
  fun r => a r &&& b r

/-- Modelled from the spec (§4.7): the `InvalidBitIndex` failure of
`write_clear_bit`. -/
inductive WriteError
  | invalidBitIndex
deriving DecidableEq

/-- Modelled from the spec (§4.7): `write_clear_bit(register, bit_index)`
clears bit `bit_index` of the addressed register when
`0 ≤ bit_index < 32`, and fails with `InvalidBitIndex` — no partial
effect — otherwise.  Clearing bit `i` of `v` is `v AND NOT (1 << i)`,
written arithmetically as `v - (v AND (1 << i))`. -/
def ConfigObject.write_clear_bit (c : ConfigObject) (r : Nat) (i : Nat) :
    Except WriteError ConfigObject :=
  if i < 32 then
    .ok fun addr => if addr = r then c r - (c r &&& 2 ^ i) else c addr
  else .error .invalidBitIndex

/-- Modelled from the spec (§3, §4.5): the state of
`TropicEncryptedSession` (`tvl/crypto/encrypted_session.py` is not part of
the excerpted source) — a binary established flag, the two derived
directional keys, and one nonce/sequence counter per direction. -/
structure EncryptedSession where
  established : Bool
  k_cmd : List Nat
  k_res : List Nat
  nonce_cmd : Nat
  nonce_res : Nat
deriving DecidableEq

/-- Modelled from the spec (§4.5): `TropicEncryptedSession.reset` — zeroes
all derived key material, resets the sequence counters and returns the
state to UNESTABLISHED.  A freshly constructed session has the same
state. -/
def EncryptedSession.reset : EncryptedSession :=
  { established := false
    k_cmd := List.replicate 32 0
    k_res := List.replicate 32 0
    nonce_cmd := 0
    nonce_res := 0 }

/-- Modelled from the spec (§4.3): the states of the L1 transport FSM
(`tvl/targets/model/internal/spi_fsm.py` is not part of the excerpted
source). -/
inductive SpiFsmState
  | idle
  | receiving
  | processing
  | sending
deriving DecidableEq

/-- Modelled from the spec (§3, §4.3): the transport FSM holds the
chip-select line level, the current state and the inbound/outbound frame
buffers. -/
structure SpiFsm where
  csn_high : Bool
  state : SpiFsmState
  rx_buffer : List Nat
  tx_buffer : List Nat
deriving DecidableEq

/-- Modelled from the spec (§3): `SpiFsm.reset` — back to the initial
idle, CSN-high state; partially received frames are discarded. -/
def SpiFsm.reset : SpiFsm :=
  { csn_high := true, state := .idle, rx_buffer := [], tx_buffer := [] }

/-- Embeds the `BaseModel` state (`tvl/targets/model/base_model.py`)
touched by the claims.  `config_cache` embeds the `_config` attribute
(`none` embeds Python `None`, the not-yet-computed marker); the partitions
no claim consults (ECC keys, user data, monotonic counters, pairing key
values, ...) are omitted. -/
structure BaseModel where
  i_config : ConfigObject
  r_config : ConfigObject
  config_cache : Option ConfigObject
  session : EncryptedSession
  pairing_key_slot : Int
  command_buffer : Option (List Nat)
  spi_fsm : SpiFsm
  activate_encryption : Bool

/-- Embeds `BaseModel.__init__`: a fresh model has `_config = None`, an
empty encrypted session, `pairing_key_slot = -1`, an empty command buffer
and the FSM in its initial state. -/
def BaseModel.init (i_config r_config : ConfigObject)
    (activate_encryption : Bool) : BaseModel :=
  { i_config := i_config
    r_config := r_config
    config_cache := none
    session := EncryptedSession.reset
    pairing_key_slot := -1
    command_buffer := none
    spi_fsm := SpiFsm.reset
    activate_encryption := activate_encryption }

/-- Embeds the `BaseModel.config` property: compute
`i_config & r_config` on the first access after power-on, cache it in
`_config`, and return the cached object on later reads.  Returns the value
together with the updated model. -/
def BaseModel.config (m : BaseModel) : ConfigObject × BaseModel :=
  match m.config_cache with
  | some c => (c, m)
  | none =>
    let c := ConfigObject.and m.i_config m.r_config
    (c, { m with config_cache := some c })

/-- Embeds `BaseModel.invalidate_session`: reset the secure channel
session and clear the active pairing key slot to the `-1` sentinel. -/
def BaseModel.invalidate_session (m : BaseModel) : BaseModel :=
  { m with session := EncryptedSession.reset, pairing_key_slot := -1 }

/-- Embeds `BaseModel._process_power_off`: invalidate the session, reset
the command buffer and the SPI FSM, and drop the cached configuration
(`_config = None`). -/
def BaseModel.process_power_off (m : BaseModel) : BaseModel :=
  let m := m.invalidate_session
  { m with command_buffer := none, spi_fsm := SpiFsm.reset, config_cache := none }

/-- Embeds `BaseModel.power_off`: logs, then calls
`_process_power_off`. -/
def BaseModel.power_off (m : BaseModel) : BaseModel :=
  m.process_power_off

/-- Embeds a configuration write at model level: `write_clear_bit` applied
to the reversible copy (`r_config`), the only copy a register write may
touch (spec §3).  The `BaseModel` source contains no cache invalidation
besides `_process_power_off`, and the configuration object carries no
reference to the model's `_config` cache, so the write leaves
`config_cache` as it is. -/
def BaseModel.write_clear_bit (m : BaseModel) (r : Nat) (i : Nat) :
    Except WriteError BaseModel :=
  match m.r_config.write_clear_bit r i with
  | .ok c => .ok { m with r_config := c }
  | .error err => .error err

/-- Modelled from the spec (§3, §4.6): `S_HI_PUB_NB_SLOTS`
(`tvl/constants.py` is not part of the excerpted source) — "one of exactly
4 fixed-index slots", "slots 0–3 map to bits 0–3". -/
def S_HI_PUB_NB_SLOTS : Nat := 4

/-- Embeds the outcome of `BaseModel.check_access_privileges`: a normal
return, the fatal `RuntimeError("Chip not paired yet.")`, or
`L3ProcessingErrorUnauthorized`. -/
inductive CheckResult
  | ok
  | fatalNotPaired
  | unauthorized
deriving DecidableEq

/-- Embeds `BaseModel.check_access_privileges`
(`tvl/targets/model/base_model.py`): bypass the check entirely when
encryption is deactivated; raise `RuntimeError` when `pairing_key_slot` is
outside `0 ≤ slot < S_HI_PUB_NB_SLOTS`; raise
`L3ProcessingErrorUnauthorized` when bit `slot` of the register value is
clear (`value & 2**slot` is falsy); return normally otherwise.  The `name`
argument only feeds logging and is dropped. -/
def BaseModel.check_access_privileges (m : BaseModel) (value : Nat) : CheckResult :=
  if !m.activate_encryption then .ok
  else if ¬ (0 ≤ m.pairing_key_slot ∧ m.pairing_key_slot < (S_HI_PUB_NB_SLOTS : Int)) then
    .fatalNotPaired
  else if value &&& 2 ^ m.pairing_key_slot.toNat = 0 then .unauthorized
  else .ok

/-- Modelled from the spec (§4.5): `ENCRYPTION_TAG_LEN`
(`tvl/constants.py` is not part of the excerpted source) — the fixed width
of the AEAD/placeholder tag; 16, the AES-GCM tag length. -/
def ENCRYPTION_TAG_LEN : Nat := 16

/-- Embeds `BaseModel.encrypt_result`: with encryption active delegate to
the AEAD session (`session.encrypt_response`, passed here as a function);
otherwise append `ENCRYPTION_TAG_LEN` zero bytes to the plaintext. -/
def BaseModel.encrypt_result (m : BaseModel)
    (session_encrypt : List Nat → List Nat) (result : List Nat) : List Nat :=
  if m.activate_encryption then session_encrypt result
  else result ++ List.replicate ENCRYPTION_TAG_LEN 0

/-- Embeds `BaseModel.decrypt_command`: with encryption active delegate to
the AEAD session (`session.decrypt_command`, which may return `None`);
otherwise drop the trailing `ENCRYPTION_TAG_LEN` bytes —
`command[:-ENCRYPTION_TAG_LEN]`, which Python clamps at the empty string
exactly as the truncated `Nat` subtraction does. -/
def BaseModel.decrypt_command (m : BaseModel)
    (session_decrypt : List Nat → Option (List Nat)) (command : List Nat) :
    Option (List Nat) :=
  if m.activate_encryption then session_decrypt command
  else some (command.take (command.length - ENCRYPTION_TAG_LEN))

/-- Modelled from the spec (§6): `L2StatusEnum` (`tvl/constants.py` is not
part of the excerpted source) — the status codes surfaced in L2
responses. -/
inductive L2StatusEnum
  | REQ_OK
  | CRC_ERR
  | UNKNOWN_REQ
  | GEN_ERR
deriving DecidableEq

/-- Embeds the outcome of `L2Request.instantiate_subclass`
(`tvl/messages/l2_messages.py` is not part of the excerpted source): the
id is not registered (`SubclassNotFoundError`), the frame violates the
shape of the registered message (`NoValidSubclassError`), or a parsed
request. -/
inductive ParseOutcome (Req : Type)
  | subclassNotFound
  | noValidSubclass
  | parsed (request : Req)

/-- Embeds a raw L2 frame as `_process_input` observes it: the checksum
verdict (`has_valid_crc` of the length-generic parse) and the
`instantiate_subclass` outcome, both computed by the message layer. -/
structure Frame (Req : Type) where
  crc_valid : Bool
  parse : ParseOutcome Req

/-- Embeds an error raised by `process_l2_request`: an `L2ProcessingError`
carrying a status, or any other exception — e.g. the `RuntimeError` of
`check_access_privileges` — represented by the type `E`. -/
inductive HandlerError (E : Type)
  | processingError (status : L2StatusEnum)
  | uncaught (exc : E)

/-- Embeds an L2 response: a bare status response
(`L2Response(status=...)`) or a handler-built response with payload type
`A`. -/
inductive L2Resp (A : Type)
  | statusOnly (status : L2StatusEnum)
  | payload (response : A)

/-- Embeds `BaseModel._process_input` (`tvl/targets/model/base_model.py`):
answer `CRC_ERR` on an invalid checksum; `UNKNOWN_REQ` on
`SubclassNotFoundError`; `CRC_ERR` on `NoValidSubclassError`; otherwise
invoke the handler, converting a raised `L2ProcessingError` into a bare
status response.  Any other handler exception is not caught there and
propagates (`Except.error`). -/
def process_input {Req A E : Type} (frame : Frame Req)
    (handler : Req → Except (HandlerError E) (List (L2Resp A))) :
    Except E (List (L2Resp A)) :=
  if !frame.crc_valid then .ok [.statusOnly .CRC_ERR]
  else
    match frame.parse with
    | .subclassNotFound => .ok [.statusOnly .UNKNOWN_REQ]
    | .noValidSubclass => .ok [.statusOnly .CRC_ERR]
    | .parsed request =>
      match handler request with
      | .ok responses => .ok responses
      | .error (.processingError status) => .ok [.statusOnly status]
      | .error (.uncaught exc) => .error exc

/-! ### Helper lemmas about the byte codec -/

theorem packLE_length (w x : Nat) : (packLE w x).length = w := by
  induction w generalizing x with
  | zero => rfl
  | succ w ih => simp [packLE, ih]

theorem unpackLE_packLE (w x : Nat) (h : x < 256 ^ w) :
    unpackLE (packLE w x) = x := by
  induction w generalizing x with
  | zero =>
    simp [packLE, unpackLE]
    omega
  | succ w ih =>
    have hdiv : x / 256 < 256 ^ w := by
      rw [pow_succ] at h
      omega
    simp [packLE, unpackLE, ih (x / 256) hdiv]
    omega

theorem packElem_length (e : Endianness) (w x : Nat) :
    (packElem e w x).length = w := by
  cases e <;> simp [packElem, packLE_length]

theorem unpackElem_packElem (e : Endianness) (w x : Nat)
    (h : x < 2 ^ (8 * w)) : unpackElem e (packElem e w x) = x := by
  have h' : x < 256 ^ w := by
    rw [pow_mul] at h
    norm_num at h
    exact h
  cases e with
  | little => exact unpackLE_packLE w x h'
  | big =>
    simp only [packElem, unpackElem, List.reverse_reverse]
    exact unpackLE_packLE w x h'

theorem packElem_one (e : Endianness) (v : Nat) : packElem e 1 v = [v % 256] := by
  cases e <;> simp [packElem, packLE]

theorem unpackElem_singleton (e : Endianness) (v : Nat) : unpackElem e [v] = v := by
  cases e <;> simp [unpackElem, unpackLE]

theorem pack_bytes_id (e : Endianness) (x : List Nat) (h : ∀ v ∈ x, v < 256) :
    (x.map (packElem e 1)).flatten = x := by
  induction x with
  | nil => rfl
  | cons a t ih =>
    have ha : a % 256 = a := Nat.mod_eq_of_lt (h a (by simp))
    simp only [List.map_cons, List.flatten_cons, packElem_one, ha,
      List.cons_append, List.nil_append]
    rw [ih (fun v hv => h v (by simp [hv]))]

theorem packed_length (e : Endianness) (w : Nat) (x : List Nat) :
    ((x.map (packElem e w)).flatten).length = x.length * w := by
  induction x with
  | nil => simp
  | cons a t ih =>
    simp [ih, packElem_length]
    ring

/-- Reduction of `ValueDescriptor.__set__` on every non-`AUTO` input. -/
theorem value_descriptor_set_eq (e : Endianness) (p : Params)
    (input : DataFieldInput) (hna : input ≠ .auto) :
    value_descriptor_set e p input =
      (if (format_to_list e p input).length > p.max_size then .error .listTooLong
       else .ok (.val (format_to_list e p input
         ++ List.replicate ((if p.has_variable_size then p.min_size else p.max_size)
             - (format_to_list e p input).length) 0))) := by
  cases input
  · exact absurd rfl hna
  all_goals rfl

/-! ### C1 — access-control check -/

/-- C1: with encryption active, `check_access_privileges` succeeds for an
active slot (0..3) exactly when bit `pairing_key_slot` of the register
value is set and raises `Unauthorized` when that bit is clear; it raises
the fatal not-paired error whenever the slot is outside 0..3 (e.g. the
`-1` sentinel); with encryption deactivated it succeeds for every value
and every slot. -/
theorem check_access_privileges_spec (m : BaseModel) (v : Nat) :
    (m.activate_encryption = false → m.check_access_privileges v = .ok)
    ∧ (m.activate_encryption = true →
      ((0 ≤ m.pairing_key_slot ∧ m.pairing_key_slot < (S_HI_PUB_NB_SLOTS : Int)) →
        (m.check_access_privileges v = .ok ↔
          v.testBit m.pairing_key_slot.toNat = true)
        ∧ (v.testBit m.pairing_key_slot.toNat = false →
            m.check_access_privileges v = .unauthorized))
      ∧ (¬ (0 ≤ m.pairing_key_slot ∧ m.pairing_key_slot < (S_HI_PUB_NB_SLOTS : Int)) →
          m.check_access_privileges v = .fatalNotPaired)) := by
  have key : ∀ k : Nat, (v &&& 2 ^ k = 0) ↔ (v.testBit k = false) := by
    intro k
    rw [Nat.and_two_pow]
    cases h : v.testBit k <;> simp [h, (Nat.two_pow_pos k).ne']
  refine ⟨fun h => ?_, fun h => ⟨fun hactive => ?_, fun hinactive => ?_⟩⟩
  · simp [BaseModel.check_access_privileges, h]
  · by_cases hb : v.testBit m.pairing_key_slot.toNat
    · have hz : ¬ (v &&& 2 ^ m.pairing_key_slot.toNat = 0) := by
        rw [key]
        simp [hb]
      simp [BaseModel.check_access_privileges, h, hactive, hz, hb]
    · have hz : v &&& 2 ^ m.pairing_key_slot.toNat = 0 := by
        rw [key]
        simpa using hb
      simp [BaseModel.check_access_privileges, h, hactive, hz, hb]
  · simp [BaseModel.check_access_privileges, h, hinactive]

def c1Model : BaseModel :=
  { BaseModel.init (fun _ => 0) (fun _ => 0) true with pairing_key_slot := 1 }

/-- Witness for C1: with encryption active and slot 1, the check succeeds
on register value 2 (bit 1 set). -/
theorem check_access_privileges_spec_witness :
    c1Model.check_access_privileges 2 = .ok :=
  (((check_access_privileges_spec c1Model 2).2 rfl).1 (by decide)).1.mpr (by decide)

/-! ### C2 — dispatcher error statuses -/

/-- C2: an invalid checksum answers `CRC_ERR` for every parse outcome and
every handler (so the handler is neither resolved nor invoked); a valid
checksum with an unregistered id answers `UNKNOWN_REQ`; a registered id
with a malformed frame answers `CRC_ERR`; the unknown-id and malformed
statuses are distinct. -/
theorem process_input_spec {Req A E : Type} (frame : Frame Req)
    (handler : Req → Except (HandlerError E) (List (L2Resp A))) :
    (frame.crc_valid = false →
      process_input frame handler = .ok [.statusOnly .CRC_ERR])
    ∧ (frame.crc_valid = true → frame.parse = .subclassNotFound →
      process_input frame handler = .ok [.statusOnly .UNKNOWN_REQ])
    ∧ (frame.crc_valid = true → frame.parse = .noValidSubclass →
      process_input frame handler = .ok [.statusOnly .CRC_ERR])
    ∧ L2StatusEnum.UNKNOWN_REQ ≠ L2StatusEnum.CRC_ERR := by
  refine ⟨fun h => ?_, fun h hp => ?_, fun h hp => ?_, by decide⟩
  · simp [process_input, h]
  · simp [process_input, h, hp]
  · simp [process_input, h, hp]

def c2Frame : Frame Unit := ⟨false, .parsed ()⟩

def c2Handler : Unit → Except (HandlerError Unit) (List (L2Resp Unit)) :=
  fun _ => .ok []

/-- Witness for C2: a frame with a bad checksum gets the bare `CRC_ERR`
response. -/
theorem process_input_spec_witness :
    process_input c2Frame c2Handler = .ok [.statusOnly .CRC_ERR] :=
  (process_input_spec c2Frame c2Handler).1 rfl

/-! ### C3 — effective configuration, lazily computed and cached -/

/-- C3: reading the `config` property returns the bitwise AND of the
irreversible and reversible configuration objects — computed on the first
read after construction or after the last power-off, then cached — and
`power_off` clears the cache so the next read recomputes it. -/
theorem config_spec (m : BaseModel) (i r : ConfigObject) (b : Bool) :
    ((BaseModel.init i r b).config.1 = ConfigObject.and i r)
    ∧ (m.power_off.config.1 = ConfigObject.and m.i_config m.r_config)
    ∧ (m.config.2.config_cache = some m.config.1)
    ∧ (m.config.2.config = (m.config.1, m.config.2))
    ∧ (m.power_off.config_cache = none)
    ∧ (m.config_cache = none →
        m.config.1 = ConfigObject.and m.i_config m.r_config) := by
  refine ⟨rfl, rfl, ?_, ?_, rfl, fun h => ?_⟩
  · cases h : m.config_cache <;> simp [BaseModel.config, h]
  · cases h : m.config_cache <;> simp [BaseModel.config, h]
  · simp [BaseModel.config, h]

def c3I : ConfigObject := fun _ => 12

def c3R : ConfigObject := fun _ => 10

/-- Witness for C3: a freshly constructed model reads `12 AND 10 = 8` at
register 0. -/
theorem config_spec_witness : (BaseModel.init c3I c3R true).config.1 0 = 8 :=
  (congrFun ((config_spec (BaseModel.init c3I c3R true) c3I c3R true).1) 0).trans
    (by decide)

/-! ### C4 — configuration writes versus the effective-value cache -/

def c4Ones : ConfigObject := fun _ => 4294967295

def c4Model : BaseModel := BaseModel.init c4Ones c4Ones true

def c4After : BaseModel :=
  match BaseModel.write_clear_bit c4Model.config.2 0 0 with
  | .ok m => m
  | .error _ => c4Model

/-- Counterexample to C4 as stated: populate the cache (read gives the
all-ones register 0), clear bit 0 of register 0 through
`write_clear_bit`, and read again — the read still returns the stale
cached 4294967295 although the AND of the current configuration copies is
4294967294, so the read does not reflect the write. -/
theorem write_clear_bit_stale_counterexample :
    c4After.config.1 0 = 4294967295
    ∧ ConfigObject.and c4After.i_config c4After.r_config 0 = 4294967294
    ∧ c4After.config.1 0 ≠ ConfigObject.and c4After.i_config c4After.r_config 0 := by
  refine ⟨by decide, by decide, by decide⟩

/-- C4 amended: `write_clear_bit` clears the bit in the reversible copy
but does not invalidate the cached effective configuration — the only
invalidation of the cache is power-off — so a read between the write and
the next power-off still returns the previously cached value; only after
`power_off` does the read reflect the write. -/
theorem write_clear_bit_cache_spec (m : BaseModel) (r i : Nat) (m' : BaseModel)
    (h : m.write_clear_bit r i = .ok m') :
    m'.config_cache = m.config_cache
    ∧ m'.i_config = m.i_config
    ∧ (∀ c, m.config_cache = some c → m'.config.1 = c)
    ∧ m'.power_off.config.1 = ConfigObject.and m'.i_config m'.r_config
    ∧ m'.r_config r = m.r_config r - (m.r_config r &&& 2 ^ i) := by
  unfold BaseModel.write_clear_bit ConfigObject.write_clear_bit at h
  by_cases hlt : i < 32
  · rw [if_pos hlt] at h
    injection h with h2
    subst h2
    refine ⟨rfl, rfl, fun c hc => ?_, rfl, by simp⟩
    simp [BaseModel.config, hc]
  · rw [if_neg hlt] at h
    injection h

/-- Witness for C4 (amended): the concrete write of bit 0 at register 0
leaves the cache untouched and updates the reversible copy to
4294967294. -/
theorem write_clear_bit_cache_spec_witness : c4After.r_config 0 = 4294967294 :=
  ((write_clear_bit_cache_spec c4Model.config.2 0 0 c4After rfl).2.2.2.2).trans
    (by decide)

/-! ### C5 — decode after encode on fixed-size fields -/

/-- Counterexample to C5 as stated: for the fixed-size two-element UINT16
field, the in-range value `[1, 2]` serializes to the four bytes
`[1, 0, 2, 0]`, and re-assigning these bytes to the field raises
`ListTooLongError` — the bytes fall back to four uint8 elements, more
than `max_size = 2` — instead of decoding back to `[1, 2]`. -/
theorem decode_encode_counterexample :
    to_bytes .little ⟨.UINT16, 2, 2, 0, true⟩ [1, 2] = .ok [1, 0, 2, 0]
    ∧ value_descriptor_set .little ⟨.UINT16, 2, 2, 0, true⟩ (.bytes [1, 0, 2, 0])
      = .error .listTooLong :=
  ⟨rfl, rfl⟩

/-- C5 amended: the decode-encode round trip holds for every fixed-size
field that is a scalar (one element of any dtype) or has byte-wide
(UINT8) elements; for a fixed multi-element field with wider elements the
re-assignment raises `ListTooLongError` instead (see the
counterexample). -/
theorem decode_encode_roundtrip (e : Endianness) (p : Params) (x : List Nat)
    (hfix : p.min_size = p.max_size) (hlen : x.length = p.max_size)
    (hrange : ∀ v ∈ x, v < 2 ^ (8 * p.dtype.nb_bytes))
    (hcase : p.dtype = .UINT8 ∨ p.max_size = 1) :
    ∃ encoded, to_bytes e p x = .ok encoded
      ∧ value_descriptor_set e p (.bytes encoded) = .ok (.val x) := by
  have hall : x.all (fun v => decide (v < 2 ^ (8 * p.dtype.nb_bytes))) = true := by
    rw [List.all_eq_true]
    intro v hv
    exact decide_eq_true (hrange v hv)
  refine ⟨(x.map (packElem e p.dtype.nb_bytes)).flatten, ?_, ?_⟩
  · unfold to_bytes
    rw [if_pos hall]
  · have hvar : p.has_variable_size = false := by
      simp [Params.has_variable_size, hfix]
    have hfmt :
        format_to_list e p (.bytes ((x.map (packElem e p.dtype.nb_bytes)).flatten))
          = x := by
      rcases hcase with hD | h1
      · have hid : (x.map (packElem e p.dtype.nb_bytes)).flatten = x := by
          rw [hD]
          refine pack_bytes_id e x ?_
          intro v hv
          have hvr := hrange v hv
          rw [hD] at hvr
          simpa using hvr
        rw [hid]
        simp only [format_to_list, format_bytes_to_list]
        by_cases hl : x.length = p.dtype.nb_bytes
        · rw [if_pos hl]
          rw [hD] at hl
          obtain ⟨x0, rfl⟩ := List.length_eq_one.mp hl
          rw [unpackElem_singleton]
        · rw [if_neg hl]
      · have hx1 : x.length = 1 := by rw [hlen, h1]
        obtain ⟨x0, rfl⟩ := List.length_eq_one.mp hx1
        have hx0 : x0 < 2 ^ (8 * p.dtype.nb_bytes) := hrange x0 (by simp)
        simp only [List.map_cons, List.map_nil, List.flatten_cons, List.flatten_nil,
          List.append_nil, format_to_list, format_bytes_to_list, packElem_length,
          if_pos rfl]
        rw [unpackElem_packElem e p.dtype.nb_bytes x0 hx0]
        simp
    rw [value_descriptor_set_eq e p _ (by intro hc; cases hc), hfmt]
    rw [if_neg (by rw [hlen]; omega)]
    rw [hvar]
    simp [hlen]

/-- Witness for C5 (amended): a one-element UINT16 field round-trips the
value 258 through its two-byte encoding. -/
theorem decode_encode_roundtrip_witness :
    ∃ encoded, to_bytes .little ⟨.UINT16, 1, 1, 0, true⟩ [258] = .ok encoded
      ∧ value_descriptor_set .little ⟨.UINT16, 1, 1, 0, true⟩ (.bytes encoded)
        = .ok (.val [258]) :=
  decode_encode_roundtrip .little ⟨.UINT16, 1, 1, 0, true⟩ [258] rfl rfl
    (by decide) (Or.inr rfl)

/-! ### C6 — size bounds and padding on assignment -/

/-- C6: assigning more elements than `max_size` raises the size error —
the exception propagates before the store, so the previously stored value
is unchanged; assigning a shorter value to a fixed-size field zero-pads
it up to that width; every successful non-`AUTO` assignment stores an
element count within `[min_size, max_size]`. -/
theorem value_descriptor_set_spec (e : Endianness) (p : Params)
    (input : DataFieldInput) (hv : p.valid) (hna : input ≠ .auto) :
    ((format_to_list e p input).length > p.max_size →
      value_descriptor_set e p input = .error .listTooLong)
    ∧ (p.min_size = p.max_size → (format_to_list e p input).length ≤ p.max_size →
      value_descriptor_set e p input
        = .ok (.val (format_to_list e p input
            ++ List.replicate (p.max_size - (format_to_list e p input).length) 0))
      ∧ (format_to_list e p input
            ++ List.replicate (p.max_size - (format_to_list e p input).length) 0).length
          = p.max_size)
    ∧ (∀ s, value_descriptor_set e p input = .ok (.val s) →
      p.min_size ≤ s.length ∧ s.length ≤ p.max_size) := by
  rw [value_descriptor_set_eq e p input hna]
  refine ⟨fun hgt => ?_, fun hfix hle => ?_, fun s hs => ?_⟩
  · rw [if_pos hgt]
  · have hvar : p.has_variable_size = false := by
      simp [Params.has_variable_size, hfix]
    rw [if_neg (by omega)]
    rw [hvar]
    refine ⟨by simp, by simp; omega⟩
  · by_cases hgt : (format_to_list e p input).length > p.max_size
    · rw [if_pos hgt] at hs
      cases hs
    · rw [if_neg hgt] at hs
      injection hs with hs1
      injection hs1 with hs2
      subst hs2
      rw [List.length_append, List.length_replicate]
      rcases hv with ⟨hmax, hminmax⟩
      by_cases hvv : p.min_size = p.max_size <;>
        simp [Params.has_variable_size, hvv] <;> omega

def c6Params : Params := ⟨.UINT8, 2, 2, 0, true⟩

/-- Witness for C6: the short list `[5]` assigned to a fixed-size
two-element UINT8 field is zero-padded to `[5, 0]`. -/
theorem value_descriptor_set_spec_witness :
    value_descriptor_set .little c6Params (.list [5]) = .ok (.val [5, 0]) := by
  have h :=
    ((value_descriptor_set_spec .little c6Params (.list [5]) (by decide)
      (by decide)).2.1 rfl (by decide)).1
  simpa using h

/-! ### C10 — bytes inputs and the declared dtype -/

/-- C10: a bytes input is decoded as a single element of the declared
dtype exactly when its length equals the dtype's byte width; a bytes
input of any other length is reinterpreted as that many separate uint8
elements regardless of the declared dtype — so the normalized list is
always either one decoded element or the raw bytes, never several
dtype-wide elements. -/
theorem bytes_input_decoding (e : Endianness) (p : Params) (b : List Nat)
    (hv : p.valid) :
    (b.length = p.dtype.nb_bytes →
      value_descriptor_set e p (.bytes b)
        = .ok (.val ([unpackElem e b]
            ++ List.replicate ((if p.has_variable_size then p.min_size
                else p.max_size) - 1) 0)))
    ∧ (b.length ≠ p.dtype.nb_bytes → p.min_size ≤ b.length →
        b.length ≤ p.max_size →
      value_descriptor_set e p (.bytes b) = .ok (.val b))
    ∧ ((format_to_list e p (.bytes b)).length = 1
        ∨ format_to_list e p (.bytes b) = b) := by
  refine ⟨fun hw => ?_, fun hw hmin hmax => ?_, ?_⟩
  · rw [value_descriptor_set_eq e p _ (by intro hc; cases hc)]
    have hfmt : format_to_list e p (.bytes b) = [unpackElem e b] := by
      simp [format_to_list, format_bytes_to_list, hw]
    rw [hfmt]
    have hmax := hv.1
    rw [if_neg (by simp; omega)]
    simp
  · rw [value_descriptor_set_eq e p _ (by intro hc; cases hc)]
    have hfmt : format_to_list e p (.bytes b) = b := by
      simp [format_to_list, format_bytes_to_list, hw]
    rw [hfmt]
    rw [if_neg (by omega)]
    have hl : (if p.has_variable_size then p.min_size else p.max_size) ≤ b.length := by
      by_cases hvv : p.min_size = p.max_size <;>
        simp [Params.has_variable_size, hvv] <;> omega
    simp [Nat.sub_eq_zero_of_le hl]
  · by_cases hw : b.length = p.dtype.nb_bytes
    · left
      simp [format_to_list, format_bytes_to_list, hw]
    · right
      simp [format_to_list, format_bytes_to_list, hw]

def c10Params : Params := ⟨.UINT32, 1, 6, 0, true⟩

/-- Witness for C10: three bytes assigned to a UINT32 array field are
stored as three separate uint8 elements, not decoded as UINT32. -/
theorem bytes_input_decoding_witness :
    value_descriptor_set .little c10Params (.bytes [1, 2, 3]) = .ok (.val [1, 2, 3]) :=
  (bytes_input_decoding .little c10Params [1, 2, 3] (by decide)).2.1
    (by decide) (by decide) (by decide)

/-! ### C7 — placeholder encryption in diagnostic mode -/

/-- C7: with encryption deactivated, `encrypt_result` appends exactly
`ENCRYPTION_TAG_LEN` zero bytes to the plaintext, `decrypt_command` drops
exactly the trailing `ENCRYPTION_TAG_LEN` bytes, the round trip
`decrypt_command (encrypt_result x) = x` holds for every byte string, and
the AEAD session functions are never consulted — the outcome is the same
for every session encrypt/decrypt function. -/
theorem plaintext_mode_roundtrip (m : BaseModel)
    (h : m.activate_encryption = false) (x c : List Nat)
    (se se' : List Nat → List Nat) (sd sd' : List Nat → Option (List Nat)) :
    m.encrypt_result se x = x ++ List.replicate ENCRYPTION_TAG_LEN 0
    ∧ m.decrypt_command sd (m.encrypt_result se x) = some x
    ∧ m.decrypt_command sd c = some (c.take (c.length - ENCRYPTION_TAG_LEN))
    ∧ m.encrypt_result se x = m.encrypt_result se' x
    ∧ m.decrypt_command sd c = m.decrypt_command sd' c := by
  refine ⟨?_, ?_, ?_, ?_, ?_⟩
  · simp [BaseModel.encrypt_result, h]
  · simp only [BaseModel.encrypt_result, BaseModel.decrypt_command, h,
      Bool.false_eq_true, if_false, List.length_append, List.length_replicate,
      Nat.add_sub_cancel, List.take_left]
  · simp [BaseModel.decrypt_command, h]
  · simp [BaseModel.encrypt_result, h]
  · simp [BaseModel.decrypt_command, h]

def c7Model : BaseModel := BaseModel.init (fun _ => 0) (fun _ => 0) false

/-- Witness for C7: with encryption deactivated, `[1, 2, 3]` round-trips
through the placeholder tag. -/
theorem plaintext_mode_roundtrip_witness :
    c7Model.decrypt_command (fun _ => none)
      (c7Model.encrypt_result (fun l => l) [1, 2, 3]) = some [1, 2, 3] :=
  (plaintext_mode_roundtrip c7Model rfl [1, 2, 3] [] (fun l => l) (fun l => l)
    (fun _ => none) (fun _ => none)).2.1

/-! ### C8 — session invalidation and power-off -/

/-- C8: after `invalidate_session` — and after `power_off`, which invokes
it — the active pairing-key slot equals the `-1` sentinel and the secure
channel session is back in the unestablished state with zeroed key
material and reset counters, whatever the prior state; `power_off`
additionally resets the command buffer and the transport FSM. -/
theorem invalidate_session_spec (m : BaseModel) :
    m.invalidate_session.pairing_key_slot = -1
    ∧ m.invalidate_session.session = EncryptedSession.reset
    ∧ m.invalidate_session.session.established = false
    ∧ m.invalidate_session.session.k_cmd = List.replicate 32 0
    ∧ m.invalidate_session.session.k_res = List.replicate 32 0
    ∧ m.invalidate_session.session.nonce_cmd = 0
    ∧ m.invalidate_session.session.nonce_res = 0
    ∧ m.power_off.pairing_key_slot = -1
    ∧ m.power_off.session = EncryptedSession.reset
    ∧ m.power_off.command_buffer = none
    ∧ m.power_off.spi_fsm = SpiFsm.reset :=
  ⟨rfl, rfl, rfl, rfl, rfl, rfl, rfl, rfl, rfl, rfl, rfl⟩

/-! ### C9 — error containment at the dispatcher boundary -/

def c9Frame : Frame Nat := ⟨true, .parsed 0⟩

def c9Model : BaseModel := BaseModel.init (fun _ => 0) (fun _ => 0) true

/-- A handler whose access check hits the unpaired fatal path: it calls
`check_access_privileges` on a model that never completed a handshake
(slot sentinel `-1`) and raises accordingly — the fatal `RuntimeError`
outcome is an exception outside the `L2ProcessingError` hierarchy. -/
def c9Handler : Nat → Except (HandlerError Unit) (List (L2Resp Unit)) := fun _ =>
  match c9Model.check_access_privileges 15 with
  | .ok => .ok []
  | .unauthorized => .error (.processingError .GEN_ERR)
  | .fatalNotPaired => .error (.uncaught ())

/-- Counterexample to C9 as stated: a handler raising the not-paired
`RuntimeError` of `check_access_privileges` makes `_process_input`
propagate the exception to its caller instead of converting it into an
error-status response. -/
theorem process_input_uncaught_counterexample :
    process_input c9Frame c9Handler = .error () := rfl

/-- C9 amended: an `L2ProcessingError` raised during handling is caught at
the dispatcher boundary and converted into a status response, and handler
results pass through unchanged — but an exception outside the
`L2ProcessingError` hierarchy, such as the fatal not-paired
`RuntimeError` of `check_access_privileges`, is not caught and propagates
out of `_process_input`. -/
theorem process_input_error_conversion {Req A E : Type} (frame : Frame Req)
    (handler : Req → Except (HandlerError E) (List (L2Resp A)))
    (request : Req) (status : L2StatusEnum) (exc : E)
    (hcrc : frame.crc_valid = true) (hparse : frame.parse = .parsed request) :
    (handler request = .error (.processingError status) →
      process_input frame handler = .ok [.statusOnly status])
    ∧ (handler request = .error (.uncaught exc) →
      process_input frame handler = .error exc)
    ∧ (∀ responses, handler request = .ok responses →
      process_input frame handler = .ok responses) := by
  refine ⟨fun h => ?_, fun h => ?_, fun responses h => ?_⟩ <;>
    simp [process_input, hcrc, hparse, h]

def c9ErrHandler : Nat → Except (HandlerError Unit) (List (L2Resp Unit)) :=
  fun _ => .error (.processingError .GEN_ERR)

/-- Witness for C9 (amended): a handler raising `L2ProcessingError` with
the generic status gets converted into the bare `GEN_ERR` response. -/
theorem process_input_error_conversion_witness :
    process_input c9Frame c9ErrHandler = .ok [.statusOnly .GEN_ERR] :=
  (process_input_error_conversion c9Frame c9ErrHandler 0 .GEN_ERR () rfl rfl).1 rfl
